import Mathlib

/-!
Verification of the resilient completion client and interview engine of
the ai-mock-interviewer repository.

The definitions below are a shallow embedding of the TypeScript source:

* `src/lib/openrouter.ts` — `generateResponse` (retry/backoff loop around
  the Groq chat-completions call) and `buildMessages`;
* `src/lib/interviewEngine.ts` — `detectPersona`, the next-action
  heuristic of `submitAnswer`, and the session record created by
  `startSession` / mutated by `submitAnswer`.

Network I/O is abstracted by a `transport` function mapping the 1-based
attempt index to the outcome of that outbound request; everything else
follows the source line by line.
-/

namespace Spec2Proof

/-! ### Embedding of `src/lib/openrouter.ts` -/

/-- The error thrown inside an attempt.  `status` models
`error?.status || error?.code` (the HTTP status / code the catch
block reads); `message` models `error?.message`. -/
structure GroqError where
  status : Option Nat
  message : String
  deriving Repr, DecidableEq

/-- A response from the completions endpoint that parsed successfully.
`content` models `response.choices?.[0]?.message?.content`: `none` when
the chain is missing; `some ""` is JS-falsy and also rejected. -/
structure GroqResponse where
  content : Option String
  deriving Repr, DecidableEq

/-- The result of one whole `generateResponse` call, observing the
number of outbound requests made, the backoff delays computed (in
milliseconds, in order) and the final outcome. -/
inductive GenError where
  /-- `GROQ_API_KEY is not configured` thrown before the loop. -/
  | config : GenError
  /-- `Failed to generate response after 5 attempts: ...` thrown after
  the loop; carries `lastError?.message`. -/
  | exhausted : Option String → GenError
  deriving Repr, DecidableEq

deriving instance DecidableEq for Except

structure RunResult where
  requests : Nat
  delays : List Nat
  result : Except GenError String
  deriving Repr, DecidableEq

/-- `maxRetries` in `generateResponse`. -/
def maxRetries : Nat := 5

/-- `if (!process.env.GROQ_API_KEY)`: the key is present when it is set
and non-empty (the empty string is JS-falsy). -/
def keyPresent : Option String → Bool
  | none => false
  | some s => s ≠ ""

/-- Error thrown when a parsed response has no usable content
(`throw new Error('No content in Groq response')` — a plain error with
no `status`/`code` field). -/
def noContentError : GroqError := { status := none, message := "No content in Groq response" }

/-- The body of the `try` block for one attempt: issue the request via
`transport`, extract `content`, fail with `noContentError` if `content`
is JS-falsy, otherwise return it. -/
def attemptResult (transport : Nat → Except GroqError GroqResponse) (attempt : Nat) :
    Except GroqError String :=
  match transport attempt with
  | .error e => .error e
  | .ok r =>
    match r.content with
    | none => .error noContentError
    | some c => if c = "" then .error noContentError else .ok c

/-- The backoff computed in the catch block:
`status === 429` gives `Math.pow(2, attempt) * 3000`,
anything else gives `Math.pow(2, attempt - 1) * 1000`. -/
def delayFor (status : Option Nat) (attempt : Nat) : Nat :=
  if status = some 429 then 2 ^ attempt * 3000 else 2 ^ (attempt - 1) * 1000

/-- The `for (let attempt = 1; attempt <= maxRetries; attempt++)` loop.
`remaining` is the number of loop iterations left (structural fuel:
initially `maxRetries`, with `attempt` starting at 1), `lastErr` is the
accumulated `lastError?.message`.  A successful attempt returns
immediately; a failed attempt records the error and, only when
`attempt < maxRetries`, computes and awaits a delay.  When the fuel runs
out the loop exits and the exhausted error is thrown. -/
def runAttempts (transport : Nat → Except GroqError GroqResponse) :
    Nat → Nat → Option String → RunResult
  | 0, _, lastErr => { requests := 0, delays := [], result := .error (.exhausted lastErr) }
  | remaining + 1, attempt, _ =>
    match attemptResult transport attempt with
    | .ok content => { requests := 1, delays := [], result := .ok content }
    | .error e =>
      if attempt < maxRetries then
        let d := delayFor e.status attempt
        let rest := runAttempts transport remaining (attempt + 1) (some e.message)
        { requests := 1 + rest.requests, delays := d :: rest.delays, result := rest.result }
      else
        let rest := runAttempts transport remaining (attempt + 1) (some e.message)
        { requests := 1 + rest.requests, delays := rest.delays, result := rest.result }

/-- `generateResponse`: check the credential once, before the loop, then
run up to `maxRetries` attempts starting at attempt 1 with no
accumulated error. -/
def generateResponse (apiKey : Option String)
    (transport : Nat → Except GroqError GroqResponse) : RunResult :=
  if keyPresent apiKey then runAttempts transport maxRetries 1 none
  else { requests := 0, delays := [], result := .error .config }

/-- Message roles of the `Message` interface. -/
inductive MsgRole where
  | system
  | user
  | assistant
  deriving Repr, DecidableEq

structure ChatMessage where
  role : MsgRole
  content : String
  deriving Repr, DecidableEq

/-- `buildMessages(systemPrompt, history, userMessage)`:
`[{role:'system',...}, ...history, {role:'user',...}]`. -/
def buildMessages (systemPrompt : String) (history : List ChatMessage)
    (userMessage : String) : List ChatMessage :=
  { role := .system, content := systemPrompt } :: history ++ [{ role := .user, content := userMessage }]

/-! ### Theorems about the retry client -/

/-- C1: when every one of the 5 attempts fails, `generateResponse` makes
exactly 5 outbound requests, raises the exhausted-retries error wrapping
the message of the attempt-5 error, and computes exactly 4 delays (one
after each of attempts 1–4, none after attempt 5). -/
theorem generateResponse_all_attempts_fail (k : Option String) (hk : keyPresent k = true)
    (transport : Nat → Except GroqError GroqResponse) (e : Nat → GroqError)
    (hfail : ∀ n, 1 ≤ n → n ≤ 5 → attemptResult transport n = .error (e n)) :
    generateResponse k transport =
      { requests := 5,
        delays := [delayFor (e 1).status 1, delayFor (e 2).status 2,
                   delayFor (e 3).status 3, delayFor (e 4).status 4],
        result := .error (.exhausted (some (e 5).message)) } := by
  have h1 := hfail 1 (by norm_num) (by norm_num)
  have h2 := hfail 2 (by norm_num) (by norm_num)
  have h3 := hfail 3 (by norm_num) (by norm_num)
  have h4 := hfail 4 (by norm_num) (by norm_num)
  have h5 := hfail 5 (by norm_num) (by norm_num)
  simp [generateResponse, hk, runAttempts, maxRetries, h1, h2, h3, h4, h5]

/-- Witness for C1 at a concrete transport that fails every attempt with
status 500 and message equal to the attempt index. -/
theorem generateResponse_all_attempts_fail_witness :
    keyPresent (some "key") = true ∧
    generateResponse (some "key")
        (fun n => .error { status := some 500, message := toString n }) =
      { requests := 5, delays := [1000, 2000, 4000, 8000],
        result := .error (.exhausted (some "5")) } := by
  refine ⟨by decide, ?_⟩
  have h := generateResponse_all_attempts_fail (some "key") (by decide)
    (fun n => .error { status := some 500, message := toString n })
    (fun n => { status := some 500, message := toString n })
    (fun n _ _ => rfl)
  simpa [delayFor] using h

/-- C2: with the credential absent, `generateResponse` fails with the
configuration error, makes zero outbound requests and computes no delay,
for every transport (the check happens before the loop, so the retry
budget is never touched). -/
theorem generateResponse_missing_key (k : Option String) (hk : keyPresent k = false)
    (transport : Nat → Except GroqError GroqResponse) :
    generateResponse k transport =
      { requests := 0, delays := [], result := .error .config } := by
  simp [generateResponse, hk]

/-- Witness for C2: no key configured, a transport that would succeed. -/
theorem generateResponse_missing_key_witness :
    keyPresent none = false ∧
    generateResponse none (fun _ => .ok { content := some "hello" }) =
      { requests := 0, delays := [], result := .error .config } :=
  ⟨by decide, generateResponse_missing_key none (by decide) _⟩

/-- C3: a 429 failure on attempt n ∈ 1..4 yields delay `2^n * 3000`; in
the scenario where attempts 1–4 fail with status 429 and attempt 5
succeeds, exactly 5 requests are made and the delays are, in order,
6000, 12000, 24000, 48000 ms. -/
theorem generateResponse_rate_limit_backoff (k : Option String) (hk : keyPresent k = true)
    (transport : Nat → Except GroqError GroqResponse) (e : Nat → GroqError) (c : String)
    (hfail : ∀ n, 1 ≤ n → n ≤ 4 → attemptResult transport n = .error (e n))
    (h429 : ∀ n, 1 ≤ n → n ≤ 4 → (e n).status = some 429)
    (hok : attemptResult transport 5 = .ok c) :
    generateResponse k transport =
      { requests := 5, delays := [6000, 12000, 24000, 48000], result := .ok c } ∧
    ∀ n, 1 ≤ n → n ≤ 4 → delayFor (e n).status n = 2 ^ n * 3000 := by
  constructor
  · have h1 := hfail 1 (by norm_num) (by norm_num)
    have h2 := hfail 2 (by norm_num) (by norm_num)
    have h3 := hfail 3 (by norm_num) (by norm_num)
    have h4 := hfail 4 (by norm_num) (by norm_num)
    have s1 := h429 1 (by norm_num) (by norm_num)
    have s2 := h429 2 (by norm_num) (by norm_num)
    have s3 := h429 3 (by norm_num) (by norm_num)
    have s4 := h429 4 (by norm_num) (by norm_num)
    simp [generateResponse, hk, runAttempts, maxRetries, h1, h2, h3, h4, hok,
      delayFor, s1, s2, s3, s4]
  · intro n h1 h4
    rw [delayFor, h429 n h1 h4]
    simp

/-- Witness for C3: attempts 1–4 fail with status 429, attempt 5
returns content. -/
theorem generateResponse_rate_limit_backoff_witness :
    keyPresent (some "key") = true ∧
    generateResponse (some "key")
        (fun n => if n = 5 then .ok { content := some "done" }
                  else .error { status := some 429, message := "rate limited" }) =
      { requests := 5, delays := [6000, 12000, 24000, 48000], result := .ok "done" } := by
  refine ⟨by decide, ?_⟩
  have h := generateResponse_rate_limit_backoff (some "key") (by decide)
    (fun n => if n = 5 then .ok { content := some "done" }
              else .error { status := some 429, message := "rate limited" })
    (fun _ => { status := some 429, message := "rate limited" }) "done"
    (fun n _ hn => by
      interval_cases n <;> rfl)
    (fun n _ _ => rfl) rfl
  exact h.1

/-- C4: a non-429 failure on attempt n yields delay `2^(n-1) * 1000`;
with mixed classes — attempt 1 fails non-429, attempt 2 fails with 429,
attempt 3 succeeds — exactly 3 requests are made and the two delays are
1000 ms (attempt 1's class) and 12000 ms (attempt 2's class). -/
theorem generateResponse_mixed_backoff (k : Option String) (hk : keyPresent k = true)
    (transport : Nat → Except GroqError GroqResponse) (e1 e2 : GroqError) (c : String)
    (hfail1 : attemptResult transport 1 = .error e1) (hs1 : e1.status ≠ some 429)
    (hfail2 : attemptResult transport 2 = .error e2) (hs2 : e2.status = some 429)
    (hok : attemptResult transport 3 = .ok c) :
    generateResponse k transport =
      { requests := 3, delays := [1000, 12000], result := .ok c } ∧
    ∀ (status : Option Nat) (n : Nat), status ≠ some 429 →
      delayFor status n = 2 ^ (n - 1) * 1000 := by
  constructor
  · simp [generateResponse, hk, runAttempts, maxRetries, hfail1, hfail2, hok,
      delayFor, hs1, hs2]
  · intro status n hne
    simp [delayFor, hne]

/-- Witness for C4: attempt 1 fails with status 500, attempt 2 with
status 429, attempt 3 succeeds. -/
theorem generateResponse_mixed_backoff_witness :
    keyPresent (some "key") = true ∧
    generateResponse (some "key")
        (fun n => if n = 1 then .error { status := some 500, message := "server error" }
                  else if n = 2 then .error { status := some 429, message := "rate limited" }
                  else .ok { content := some "done" }) =
      { requests := 3, delays := [1000, 12000], result := .ok "done" } := by
  refine ⟨by decide, ?_⟩
  have h := generateResponse_mixed_backoff (some "key") (by decide)
    (fun n => if n = 1 then .error { status := some 500, message := "server error" }
              else if n = 2 then .error { status := some 429, message := "rate limited" }
              else .ok { content := some "done" })
    { status := some 500, message := "server error" }
    { status := some 429, message := "rate limited" } "done"
    rfl (by decide) rfl rfl rfl
  exact h.1

/-- C5: an attempt that yields non-empty content returns that content
immediately — one request from that point on, no delay — and in
particular a first-attempt success means the whole call makes exactly
one outbound request with no delay. -/
theorem generateResponse_success_short_circuits (k : Option String) (hk : keyPresent k = true)
    (transport : Nat → Except GroqError GroqResponse) (c : String) :
    (∀ remaining attempt lastErr, attemptResult transport attempt = .ok c →
      runAttempts transport (remaining + 1) attempt lastErr =
        { requests := 1, delays := [], result := .ok c }) ∧
    (attemptResult transport 1 = .ok c →
      generateResponse k transport = { requests := 1, delays := [], result := .ok c }) := by
  constructor
  · intro remaining attempt lastErr hok
    simp [runAttempts, hok]
  · intro hok
    simp [generateResponse, hk, maxRetries, runAttempts, hok]

/-- Witness for C5: a transport that succeeds on every attempt. -/
theorem generateResponse_success_short_circuits_witness :
    keyPresent (some "key") = true ∧
    runAttempts (fun _ => .ok { content := some "hi" }) 3 2 none =
      { requests := 1, delays := [], result := .ok "hi" } ∧
    generateResponse (some "key") (fun _ => .ok { content := some "hi" }) =
      { requests := 1, delays := [], result := .ok "hi" } := by
  have h := generateResponse_success_short_circuits (some "key") (by decide)
    (fun _ => .ok { content := some "hi" }) "hi"
  exact ⟨by decide, h.1 2 2 none rfl, h.2 rfl⟩

/-- C6: an attempt whose response parses but carries no content
(missing, or the JS-falsy empty string) fails with `noContentError`;
that error carries no 429 status so the next delay follows the non-429
schedule `2^(attempt-1) * 1000`; and a transport that always returns
such a response burns the whole 5-attempt budget with delays
1000, 2000, 4000, 8000 before the exhausted error. -/
theorem generateResponse_empty_content_is_failure (r : GroqResponse)
    (h : r.content = none ∨ r.content = some "") (n : Nat) :
    (∀ transport : Nat → Except GroqError GroqResponse, transport n = .ok r →
      attemptResult transport n = .error noContentError) ∧
    noContentError.status ≠ some 429 ∧
    delayFor noContentError.status n = 2 ^ (n - 1) * 1000 ∧
    generateResponse (some "key") (fun _ => .ok r) =
      { requests := 5, delays := [1000, 2000, 4000, 8000],
        result := .error (.exhausted (some noContentError.message)) } := by
  have hattempt : ∀ (t : Nat → Except GroqError GroqResponse) (m : Nat), t m = .ok r →
      attemptResult t m = .error noContentError := by
    intro t m ht
    rcases h with h | h <;> simp [attemptResult, ht, h]
  refine ⟨fun t ht => hattempt t n ht, by decide, by simp [delayFor, noContentError], ?_⟩
  have hall : ∀ m, attemptResult (fun _ => .ok r) m = .error noContentError :=
    fun m => hattempt _ m rfl
  simp [generateResponse, keyPresent, runAttempts, maxRetries, hall,
    delayFor, noContentError]

/-- Witness for C6: a parsed response whose content is the empty
string. -/
theorem generateResponse_empty_content_is_failure_witness :
    ((GroqResponse.mk (some "")).content = none ∨
      (GroqResponse.mk (some "")).content = some "") ∧
    generateResponse (some "key") (fun _ => .ok (GroqResponse.mk (some ""))) =
      { requests := 5, delays := [1000, 2000, 4000, 8000],
        result := .error (.exhausted (some "No content in Groq response")) } := by
  refine ⟨Or.inr rfl, ?_⟩
  have h := generateResponse_empty_content_is_failure (GroqResponse.mk (some ""))
    (Or.inr rfl) 1
  exact h.2.2.2

/-- C7: `buildMessages s h u` is exactly one system message with content
s, then the elements of h in their original order, then one user
message with content u; its length is `h.length + 2`. -/
theorem buildMessages_spec (s : String) (h : List ChatMessage) (u : String) :
    buildMessages s h u =
      { role := .system, content := s } :: h ++ [{ role := .user, content := u }] ∧
    (buildMessages s h u).length = h.length + 2 ∧
    (buildMessages s h u).head? = some { role := .system, content := s } ∧
    ((buildMessages s h u).drop 1).take h.length = h ∧
    (buildMessages s h u).getLast? = some { role := .user, content := u } := by
  refine ⟨rfl, by simp [buildMessages], rfl, ?_, ?_⟩
  · simp [buildMessages, List.take_left]
  · have : buildMessages s h u =
        ({ role := .system, content := s } :: h) ++ [{ role := .user, content := u }] := by
      simp [buildMessages]
    rw [this, List.getLast?_concat]

/-! ### Embedding of `src/lib/interviewEngine.ts` -/

/-- JS `str.split(/\s+/)` on a character list: segments between maximal
whitespace runs (a leading or trailing run contributes an empty
segment, exactly as in JS).  `inRun` records whether the previous
character was whitespace, `cur` is the current segment reversed. -/
def jsSplitWsAux (inRun : Bool) (cur : List Char) : List Char → List (List Char)
  | [] => [cur.reverse]
  | c :: cs =>
    if c.isWhitespace then
      if inRun then jsSplitWsAux true [] cs
      else cur.reverse :: jsSplitWsAux true [] cs
    else jsSplitWsAux false (c :: cur) cs

/-- JS `str.split(/\s+/)`. -/
def jsSplitWs (s : String) : List String :=
  (jsSplitWsAux false [] s.data).map fun l => ⟨l⟩

/-- `str.split(/\s+/).length`, the "word count" used by both
`detectPersona` and the `submitAnswer` heuristic. -/
def jsWordCount (s : String) : Nat := (jsSplitWs s).length

/-- JS `str.split(sep)` for a one-character separator. -/
def jsSplitOnChar (sep : Char) : List Char → List (List Char)
  | [] => [[]]
  | c :: cs =>
    match jsSplitOnChar sep cs with
    | [] => [[]]
    | r :: rs => if c = sep then [] :: r :: rs else (c :: r) :: rs

/-- The `Persona` union type. -/
inductive Persona where
  | efficient
  | chatty
  | confused
  | edgeCase
  deriving Repr, DecidableEq

/-- The keyword `"don't know"` (apostrophe spelled via its code point). -/
def dontKnowKw : String := "don" ++ String.singleton (Char.ofNat 39) ++ "t know"

def notSureKw : String := "not sure"

/-- JS `s.includes(sub)`. -/
def strIncludes (s sub : String) : Bool := decide (sub.data <:+: s.data)

/-- `detectPersona(answers)`: `edge-case` for an empty list, otherwise
classify by `avgLength`, the average `split(/\s+/).length` over the
answers (`totalWords / answers.length`, written inline below):
`< 30` → efficient, `> 150` → chatty, then the uncertainty keywords →
confused, and finally the fallback `return 'efficient'`. -/
def detectPersona (answers : List String) : Persona :=
  if answers.length = 0 then .edgeCase
  else if (((answers.map jsWordCount).sum : ℚ) / (answers.length : ℚ)) < 30 then .efficient
  else if (((answers.map jsWordCount).sum : ℚ) / (answers.length : ℚ)) > 150 then .chatty
  else if answers.any (fun a => strIncludes a dontKnowKw || strIncludes a notSureKw) then
    .confused
  else .efficient

inductive NextAction where
  | followup
  | nextQuestion
  | endInterview
  deriving Repr, DecidableEq

/-- JS `str.trim()`: remove leading and trailing whitespace. -/
def jsTrim (s : String) : String :=
  ⟨((s.data.dropWhile Char.isWhitespace).reverse.dropWhile Char.isWhitespace).reverse⟩

/-- `isShallowAnswer` in `submitAnswer`:
`userAnswer.trim().split(/\s+/).length < 30 || userAnswer.split('.').length === 1`. -/
def isShallowAnswer (userAnswer : String) : Bool :=
  jsWordCount (jsTrim userAnswer) < 30 || (jsSplitOnChar '.' userAnswer.data).length = 1

/-- The action decision in `submitAnswer`: default `next-question`,
overridden to `end-interview` when `turnCount >= maxTurns`, else to
`followup` when the answer is shallow. -/
def decideAction (turnCount maxTurns : Int) (userAnswer : String) : NextAction :=
  if turnCount ≥ maxTurns then .endInterview
  else if isShallowAnswer userAnswer then .followup
  else .nextQuestion

inductive Speaker where
  | user
  | assistant
  deriving Repr, DecidableEq

structure HistMessage where
  speaker : Speaker
  content : String
  deriving Repr, DecidableEq

inductive SessionPhase where
  | started
  | inProgress
  | completed
  deriving Repr, DecidableEq

/-- The `InterviewSession` record (the `id` and `Date` timestamps are
not modelled: no claim is about them). -/
structure InterviewSession where
  role : String
  detectedPersona : Option Persona
  duration : ℚ
  turnCount : Int
  maxTurns : Int
  history : List HistMessage
  phase : SessionPhase
  deriving Repr, DecidableEq

/-- `Math.min(Math.max(Math.ceil(duration / 5), 4), 6)` in
`startSession`. -/
def maxTurnsFor (duration : ℚ) : Int := min (max ⌈duration / 5⌉ 4) 6

/-- The session created by `startSession` (the first question text is a
parameter, standing for the LLM-generated value). -/
def startSession (role : String) (duration : ℚ) (firstQuestion : String) : InterviewSession :=
  { role := role
    detectedPersona := none
    duration := duration
    turnCount := 1
    maxTurns := maxTurnsFor duration
    history := [{ speaker := .assistant, content := firstQuestion }]
    phase := .inProgress }

/-- The session mutation performed by `submitAnswer` and the action it
returns: push the user answer, detect the persona from all user
messages if not yet detected, decide the action, push the assistant
response (`genResponse` stands for the LLM-generated text used for
`followup` / `next-question`), mark completed on `end-interview`, and
increment `turnCount`. -/
def submitAnswerUpdate (s : InterviewSession) (userAnswer : String)
    (genResponse : String) : InterviewSession × NextAction :=
  let hist1 := s.history ++ [{ speaker := Speaker.user, content := userAnswer }]
  let persona :=
    match s.detectedPersona with
    | some p => some p
    | none =>
      some (detectPersona ((hist1.filter fun m => m.speaker == Speaker.user).map
        fun m => m.content))
  let action := decideAction s.turnCount s.maxTurns userAnswer
  let assistantResponse :=
    if action = NextAction.endInterview then
      "Thank you for the interview. Let me analyze your responses and prepare your feedback."
    else genResponse
  let phase := if action = NextAction.endInterview then SessionPhase.completed else s.phase
  ({ s with
      history := hist1 ++ [{ speaker := Speaker.assistant, content := assistantResponse }]
      detectedPersona := persona
      turnCount := s.turnCount + 1
      phase := phase }, action)

/-! ### Theorems about the interview engine -/

/-- A 30-word answer with no `'.'` and no uncertainty keyword: its
average word count (30) triggers neither the `< 30` nor the `> 150`
branch of `detectPersona`. -/
def fallbackAnswer : String :=
  "w w w w w w w w w w w w w w w w w w w w w w w w w w w w w w"

/-- For a non-empty answer list the rational average comparisons of
`detectPersona` reduce to natural-number comparisons against
`30 * length` and `150 * length`. -/
theorem detectPersona_of_ne_nil (answers : List String) (hne : answers ≠ []) :
    detectPersona answers =
      (if (answers.map jsWordCount).sum < 30 * answers.length then Persona.efficient
       else if 150 * answers.length < (answers.map jsWordCount).sum then Persona.chatty
       else if answers.any (fun a => strIncludes a dontKnowKw || strIncludes a notSureKw) then
         Persona.confused
       else Persona.efficient) := by
  have hlen : 0 < answers.length := List.length_pos.mpr hne
  have hlenq : (0 : ℚ) < (answers.length : ℚ) := by exact_mod_cast hlen
  have h30 : ((((answers.map jsWordCount).sum : ℚ) / (answers.length : ℚ)) < 30) ↔
      (answers.map jsWordCount).sum < 30 * answers.length := by
    rw [div_lt_iff₀ hlenq]
    exact_mod_cast Iff.rfl
  have h150 : ((((answers.map jsWordCount).sum : ℚ) / (answers.length : ℚ)) > 150) ↔
      150 * answers.length < (answers.map jsWordCount).sum := by
    rw [gt_iff_lt, lt_div_iff₀ hlenq]
    exact_mod_cast Iff.rfl
  rw [detectPersona, if_neg (by simpa using Nat.pos_iff_ne_zero.mp hlen)]
  by_cases h1 : (answers.map jsWordCount).sum < 30 * answers.length
  · rw [if_pos (h30.mpr h1), if_pos h1]
  · rw [if_neg (fun hc => h1 (h30.mp hc)), if_neg h1]
    by_cases h2 : 150 * answers.length < (answers.map jsWordCount).sum
    · rw [if_pos (h150.mpr h2), if_pos h2]
    · rw [if_neg (fun hc => h2 (h150.mp hc)), if_neg h2]

/-- C8 counterexample: a non-empty answer list that matches none of the
specific heuristics (average word count 30, so neither `< 30` nor
`> 150`, and no uncertainty keyword) is classified `efficient`, not
`edge-case`: the fallback branch of `detectPersona` returns
`'efficient'`. -/
theorem detectPersona_fallback_counterexample :
    ([fallbackAnswer] : List String) ≠ [] ∧
    ¬(((([fallbackAnswer].map jsWordCount).sum : ℚ) / (([fallbackAnswer].length : ℚ))) < 30) ∧
    ¬(((([fallbackAnswer].map jsWordCount).sum : ℚ) / (([fallbackAnswer].length : ℚ))) > 150) ∧
    ([fallbackAnswer].any fun a => strIncludes a dontKnowKw || strIncludes a notSureKw) = false ∧
    detectPersona [fallbackAnswer] = Persona.efficient ∧
    detectPersona [fallbackAnswer] ≠ Persona.edgeCase := by
  have hs : ([fallbackAnswer].map jsWordCount).sum = 30 := by decide
  have hl : ([fallbackAnswer] : List String).length = 1 := rfl
  have hval : detectPersona [fallbackAnswer] = Persona.efficient := by
    rw [detectPersona_of_ne_nil _ (by decide)]
    decide
  refine ⟨by decide, ?_, ?_, by decide, hval, by rw [hval]; decide⟩
  · rw [hs, hl]
    norm_num
  · rw [hs, hl]
    norm_num

/-- C8 amended: for every non-empty list of answers that matches none
of the specific heuristics (average length below 30, average length
above 150, or an uncertainty keyword), the fallback (default "else")
branch of `detectPersona` returns `'efficient'`. -/
theorem detectPersona_fallback_is_efficient (answers : List String) (hne : answers ≠ [])
    (h30 : ¬((((answers.map jsWordCount).sum : ℚ) / (answers.length : ℚ)) < 30))
    (h150 : ¬((((answers.map jsWordCount).sum : ℚ) / (answers.length : ℚ)) > 150))
    (hkw : answers.any (fun a => strIncludes a dontKnowKw || strIncludes a notSureKw) = false) :
    detectPersona answers = Persona.efficient := by
  have hlen : answers.length ≠ 0 := fun hc => hne (List.length_eq_zero.mp hc)
  rw [detectPersona, if_neg (by simpa using hlen), if_neg h30, if_neg h150,
    if_neg (by simp [hkw])]

/-- Witness for the amended C8 at the concrete 30-word answer. -/
theorem detectPersona_fallback_is_efficient_witness :
    ([fallbackAnswer] : List String) ≠ [] ∧
    detectPersona [fallbackAnswer] = Persona.efficient := by
  have hs : ([fallbackAnswer].map jsWordCount).sum = 30 := by decide
  have hl : ([fallbackAnswer] : List String).length = 1 := rfl
  refine ⟨by decide, detectPersona_fallback_is_efficient [fallbackAnswer] (by decide) ?_ ?_
    (by decide)⟩
  · rw [hs, hl]
    norm_num
  · rw [hs, hl]
    norm_num

/-- `jsSplitOnChar` never returns the empty list. -/
theorem jsSplitOnChar_ne_nil (sep : Char) (l : List Char) : jsSplitOnChar sep l ≠ [] := by
  cases l with
  | nil => simp [jsSplitOnChar]
  | cons c cs =>
    rw [jsSplitOnChar]
    match jsSplitOnChar sep cs with
    | [] => simp
    | r :: rs =>
      by_cases h : c = sep <;> simp [h]

/-- `str.split(sep).length` is the number of separator occurrences
plus one. -/
theorem jsSplitOnChar_length (sep : Char) (l : List Char) :
    (jsSplitOnChar sep l).length = l.count sep + 1 := by
  induction l with
  | nil => simp [jsSplitOnChar]
  | cons c cs ih =>
    rw [jsSplitOnChar]
    rcases hsplit : jsSplitOnChar sep cs with _ | ⟨r, rs⟩
    · exact absurd hsplit (jsSplitOnChar_ne_nil sep cs)
    · rw [hsplit] at ih
      by_cases h : c = sep
      · subst h
        simp only [if_pos rfl, List.length_cons, List.count_cons_self]
        simpa using ih
      · simp only [if_neg h, List.length_cons] at ih ⊢
        rw [List.count_cons_of_ne (fun hc => h hc.symm)]
        omega

/-- C9: `submitAnswer` picks the next action with priority: reaching
`maxTurns` forces `end-interview` regardless of the answer; otherwise
an answer whose trimmed word count is below 30 or which contains no
`'.'` gives `followup`; otherwise `next-question`. -/
theorem submitAnswer_action_heuristic (t m : Int) (a : String) :
    (t ≥ m → decideAction t m a = NextAction.endInterview) ∧
    (t < m → (jsWordCount (jsTrim a) < 30 ∨ '.' ∉ a.data) →
      decideAction t m a = NextAction.followup) ∧
    (t < m → 30 ≤ jsWordCount (jsTrim a) → '.' ∈ a.data →
      decideAction t m a = NextAction.nextQuestion) := by
  refine ⟨fun h => ?_, fun h hsh => ?_, fun h hw hd => ?_⟩
  · rw [decideAction, if_pos h]
  · rw [decideAction, if_neg (not_le.mpr h), if_pos]
    simp only [isShallowAnswer, Bool.or_eq_true, decide_eq_true_eq]
    rcases hsh with hsh | hsh
    · exact Or.inl hsh
    · refine Or.inr ?_
      rw [jsSplitOnChar_length, List.count_eq_zero.mpr hsh]
  · rw [decideAction, if_neg (not_le.mpr h), if_neg]
    simp only [isShallowAnswer, Bool.or_eq_true, decide_eq_true_eq, not_or]
    refine ⟨not_lt.mpr hw, ?_⟩
    rw [jsSplitOnChar_length]
    have := List.count_pos_iff.mpr hd
    omega

/-- Witness for C9 at three concrete calls, one per branch. -/
theorem submitAnswer_action_heuristic_witness :
    decideAction 4 4 "any answer at all" = NextAction.endInterview ∧
    decideAction 1 4 "too short" = NextAction.followup ∧
    decideAction 1 4 fallbackAnswer = NextAction.followup ∧
    decideAction 1 4
      "one two three four five six seven eight nine ten eleven twelve thirteen fourteen fifteen sixteen seventeen eighteen nineteen twenty alpha beta gamma delta epsilon zeta eta theta iota kappa. done" =
      NextAction.nextQuestion :=
  ⟨(submitAnswer_action_heuristic 4 4 "any answer at all").1 (by decide),
   (submitAnswer_action_heuristic 1 4 "too short").2.1 (by decide) (Or.inl (by decide)),
   (submitAnswer_action_heuristic 1 4 fallbackAnswer).2.1 (by decide) (Or.inr (by decide)),
   (submitAnswer_action_heuristic 1 4 _).2.2 (by decide) (by decide) (by decide)⟩

/-- C10: the session created by `startSession` has
`maxTurns = min(max(⌈duration/5⌉, 4), 6)`, which always lies in
`[4, 6]`; `submitAnswerUpdate` never changes `maxTurns` and increments
`turnCount` by exactly one. -/
theorem session_maxTurns_invariant (duration : ℚ) (role firstQuestion : String) :
    (startSession role duration firstQuestion).maxTurns = min (max ⌈duration / 5⌉ 4) 6 ∧
    4 ≤ (startSession role duration firstQuestion).maxTurns ∧
    (startSession role duration firstQuestion).maxTurns ≤ 6 ∧
    (startSession role duration firstQuestion).turnCount = 1 ∧
    ∀ (s : InterviewSession) (a g : String),
      (submitAnswerUpdate s a g).1.maxTurns = s.maxTurns ∧
      (submitAnswerUpdate s a g).1.turnCount = s.turnCount + 1 := by
  refine ⟨rfl, ?_, ?_, rfl, fun s a g => ⟨rfl, rfl⟩⟩
  · exact le_min (le_max_right _ _) (by norm_num)
  · exact min_le_right _ _

end Spec2Proof
